import Mathlib

/-!
# Verification of the multi-source-ingestion pipeline

A shallow embedding of the repository's validate → stage → transform-and-upsert
pipeline, together with proofs of the specification's claims about it.

Modelling conventions:
* Python dict records become Lean structures; a field that may be absent from
  the dict or bound to `None` becomes an `Option` field (`none` covers both
  cases: the code treats `field not in record` and `record[field] is None`
  identically wherever it checks, and both raise inside the same `try` blocks
  wherever it does not).
* Python numbers (ints and floats) become `ℚ`.
* `datetime` timestamps become `Nat` tick counts; `datetime.now()` becomes an
  explicit `now` parameter threaded to the functions that call it.
* Python exceptions in fallible code become `Option`/explicit outcome values.
* Database tables become Lean lists of rows; `db.execute_query` failures that
  the code catches per record are modelled by explicit failure oracles where a
  claim depends on them.
-/

set_option autoImplicit false

/-- A raw weather record as produced by extraction (`WeatherAPIExtractor`) and
consumed by `WeatherDataValidator.validate_record` and the staging loaders.
Every field a Python dict may lack or bind to `None` is an `Option`. -/
structure RawRecord where
  city : Option String
  country : Option String
  temperature : Option ℚ
  feels_like : Option ℚ
  humidity : Option ℚ
  pressure : Option ℚ
  wind_speed : Option ℚ
  weather_condition : Option String
deriving Repr, DecidableEq

/-- The result dict of `validate_batch` (both validators return this shape):
`{total_records, valid_count, invalid_count, valid_records, invalid_records}`,
where each invalid entry is the `{record, errors}` pair. -/
structure ValidationSummary (α : Type) where
  total_records : Nat
  valid_count : Nat
  invalid_count : Nat
  valid_records : List α
  invalid_records : List (α × List String)
deriving Repr

/-- The shared loop of both validators' `validate_batch`: iterate over the
records, appending each to `valid_records` or to `invalid_records` (as a
`{record, errors}` pair) according to `validate`, then assemble the summary
dict from the lengths and the two lists. -/
def validateStep {α : Type} (validate : α → Bool × List String)
    (acc : List α × List (α × List String)) (r : α) :
    List α × List (α × List String) :=
  let v := validate r
  if v.1 then (acc.1 ++ [r], acc.2) else (acc.1, acc.2 ++ [(r, v.2)])

/-- The summary-assembly shared by both validators' `validate_batch`. -/
def validateBatchWith {α : Type} (validate : α → Bool × List String)
    (records : List α) : ValidationSummary α :=
  let lists := records.foldl (validateStep validate) ([], [])
  { total_records := records.length
    valid_count := lists.1.length
    invalid_count := lists.2.length
    valid_records := lists.1
    invalid_records := lists.2 }

namespace WeatherDataValidator

/-- The `required_fields` list of `WeatherDataValidator.validate_record`. -/
def required_fields : List String :=
  ["city", "country", "temperature", "humidity", "pressure", "wind_speed"]

/-- `field in record and record[field] is not None`, per field name. Field
names outside the record's schema never occur in `required_fields`. -/
def fieldPresent (r : RawRecord) : String → Bool
  | "city" => r.city.isSome
  | "country" => r.country.isSome
  | "temperature" => r.temperature.isSome
  | "humidity" => r.humidity.isSome
  | "pressure" => r.pressure.isSome
  | "wind_speed" => r.wind_speed.isSome
  | "feels_like" => r.feels_like.isSome
  | "weather_condition" => r.weather_condition.isSome
  | _ => false

/-- The first loop of `validate_record`: one
`f"Missing or null field: {field}"` error per required field that is absent
or `None`, in `required_fields` order. -/
def missingErrors (r : RawRecord) : List String :=
  (required_fields.filter (fun f => !fieldPresent r f)).map
    (fun f => "Missing or null field: " ++ f)

/-- The temperature range check: `if not (-50 <= temperature <= 60)`. -/
def temperatureError (r : RawRecord) : List String :=
  match r.temperature with
  | none => []
  | some t =>
    if -50 ≤ t ∧ t ≤ 60 then []
    else ["Temperature out of range: " ++ toString t ++ ", expected -50 to 60)"]

/-- The humidity range check: `if not (0 <= humidity <= 100)`. -/
def humidityError (r : RawRecord) : List String :=
  match r.humidity with
  | none => []
  | some h =>
    if 0 ≤ h ∧ h ≤ 100 then []
    else ["Humidity out of range: " ++ toString h ++ "%, expected 0 to 100"]

/-- The wind-speed check: `if wind_speed < 0`. -/
def windSpeedError (r : RawRecord) : List String :=
  match r.wind_speed with
  | none => []
  | some w =>
    if w < 0 then ["Negative wind speed: " ++ toString w] else []

/-- The pressure range check: `if pressure < 900 or pressure > 1100`. -/
def pressureError (r : RawRecord) : List String :=
  match r.pressure with
  | none => []
  | some p =>
    if p < 900 ∨ p > 1100 then
      ["Pressure out of range: " ++ toString p ++ " hPa, expected 900 to 1100"]
    else []

/-- `WeatherDataValidator.validate_record`: collect missing-field errors; if
any, return `(False, errors)` at once (no range check runs). Otherwise run the
four range checks in source order (temperature, humidity, wind speed,
pressure), each appending its own error, and return
`(len(errors) == 0, errors)`. -/
def validate_record (r : RawRecord) : Bool × List String :=
  let missing := missingErrors r
  if missing.isEmpty then
    let errors :=
      temperatureError r ++ humidityError r ++ windSpeedError r ++ pressureError r
    (errors.isEmpty, errors)
  else
    (false, missing)

/-- `WeatherDataValidator.validate_batch`. -/
def validate_batch (records : List RawRecord) : ValidationSummary RawRecord :=
  validateBatchWith validate_record records

end WeatherDataValidator

/-- The `data` dict of one CSV row, as handed to `CSVDataValidator`.
CSV cell values are strings; an absent key is `none`. -/
structure CSVData where
  date : Option String
  product : Option String
  category : Option String
  amount : Option String
  quantity : Option String
  region : Option String
deriving Repr, DecidableEq

/-- One record handed to `CSVDataValidator`: `{source_file, row_number, data}`
as produced by the CSV extractor. -/
structure CSVRecord where
  source_file : String
  row_number : Nat
  data : CSVData
deriving Repr, DecidableEq

namespace CSVDataValidator

/-- The `required_fields` list of `CSVDataValidator.validate_record`. -/
def required_fields : List String :=
  ["date", "product", "category", "amount", "quantity", "region"]

/-- Look up a field of the `data` dict by name. -/
def fieldValue (d : CSVData) : String → Option String
  | "date" => d.date
  | "product" => d.product
  | "category" => d.category
  | "amount" => d.amount
  | "quantity" => d.quantity
  | "region" => d.region
  | _ => none

/-- `field not in data or data[field] is None or data[field] == ""`. -/
def fieldMissing (d : CSVData) (f : String) : Bool :=
  match fieldValue d f with
  | none => true
  | some s => s = ""

/-- The first loop of the CSV `validate_record`: one
`f"Missing required field: {field}"` error per missing field. -/
def missingErrors (d : CSVData) : List String :=
  (required_fields.filter (fieldMissing d)).map
    (fun f => "Missing required field: " ++ f)

/-- Whether a year is a Gregorian leap year. -/
def isLeapYear (y : Nat) : Bool :=
  (y % 4 = 0 && y % 100 ≠ 0) || y % 400 = 0

/-- Days in a month of a given year. -/
def daysInMonth (y m : Nat) : Nat :=
  if m = 2 then (if isLeapYear y then 29 else 28)
  else if m = 4 ∨ m = 6 ∨ m = 9 ∨ m = 11 then 30
  else 31

/-- Models `datetime.strptime(s, "%Y-%m-%d")` succeeding: three dash-separated
decimal components forming a calendar-valid year-month-day. -/
def isValidDate (s : String) : Bool :=
  match s.splitOn "-" with
  | [y, m, d] =>
    match y.toNat?, m.toNat?, d.toNat? with
    | some yn, some mn, some dn =>
      y.length ≤ 4 && m.length ≤ 2 && d.length ≤ 2 &&
        1 ≤ mn && mn ≤ 12 && 1 ≤ dn && dn ≤ daysInMonth yn mn
    | _, _, _ => false
  | _ => false

/-- Models Python `float(s)` on a CSV cell: optional sign, then decimal digits
with at most one point and at least one digit (scientific notation is not
exercised by this data set). Returns `none` where `float` raises. -/
def parseFloat (s : String) : Option ℚ :=
  let s := s.trim
  let (neg, body) :=
    if s.startsWith "-" then (true, s.drop 1)
    else if s.startsWith "+" then (false, s.drop 1)
    else (false, s)
  let signed := fun (q : ℚ) => if neg then -q else q
  match body.splitOn "." with
  | [intPart] =>
    match intPart.toNat? with
    | some n => some (signed n)
    | none => none
  | [intPart, fracPart] =>
    if intPart.all Char.isDigit && fracPart.all Char.isDigit &&
        (intPart ≠ "" ∨ fracPart ≠ "") then
      let iv : ℚ := (intPart.toNat?.getD 0 : ℚ)
      let fv : ℚ := (fracPart.toNat?.getD 0 : ℚ) / ((10 : ℚ) ^ fracPart.length)
      some (signed (iv + fv))
    else none
  | _ => none

/-- Models Python `int(s)` on a CSV cell: optional sign and decimal digits
only. Returns `none` where `int` raises. -/
def parseInt (s : String) : Option ℤ :=
  let s := s.trim
  let t := if s.startsWith "+" then s.drop 1 else s
  t.toInt?

/-- The date check: `datetime.strptime(str(data["date"]), "%Y-%m-%d")` inside
`try`, appending the invalid-format error on `ValueError`. The field is
guaranteed present here by the missing-field gate. -/
def dateError (d : CSVData) : List String :=
  let s := d.date.getD ""
  if isValidDate s then []
  else ["Invalid date format: " ++ s ++ " (expected YYYY-MM-DD)"]

/-- The amount check: `float(data["amount"])` then positivity. -/
def amountError (d : CSVData) : List String :=
  let s := d.amount.getD ""
  match parseFloat s with
  | some a => if a ≤ 0 then ["Amount must be positive: " ++ toString a] else []
  | none => ["Amount must be a number: " ++ s]

/-- The quantity check: `int(data["quantity"])` then positivity. -/
def quantityError (d : CSVData) : List String :=
  let s := d.quantity.getD ""
  match parseInt s with
  | some q => if q ≤ 0 then ["Quantity must be positive: " ++ toString q] else []
  | none => ["Quantity must be a number: " ++ s]

/-- The category check: `if not str(data.get("category", "")).strip()`. -/
def categoryError (d : CSVData) : List String :=
  if (d.category.getD "").trim = "" then ["Category cannot be empty"] else []

/-- `CSVDataValidator.validate_record`: missing-field gate, then the date,
amount, quantity and category checks in source order, returning
`(len(errors) == 0, errors)`. -/
def validate_record (rec : CSVRecord) : Bool × List String :=
  let d := rec.data
  let missing := missingErrors d
  if missing.isEmpty then
    let errors := dateError d ++ amountError d ++ quantityError d ++ categoryError d
    (errors.isEmpty, errors)
  else
    (false, missing)

/-- `CSVDataValidator.validate_batch`. -/
def validate_batch (records : List CSVRecord) : ValidationSummary CSVRecord :=
  validateBatchWith validate_record records

end CSVDataValidator

/-- One row of the `stg_weather_data` staging table, as returned by
`get_staging_records`. The data columns are nullable (the staging INSERT
copies whatever the raw record held); `extracted_at` is filled by the
database on insert and `load_id` ties the row to its pipeline run. -/
structure StagingRecord where
  id : Nat
  city : Option String
  country : Option String
  temperature : Option ℚ
  feels_like : Option ℚ
  humidity : Option ℚ
  pressure : Option ℚ
  weather_condition : Option String
  wind_speed : Option ℚ
  extracted_at : Nat
  load_id : Nat
deriving Repr, DecidableEq

/-- One row of the `weather_metrics` production table. -/
structure ProductionRecord where
  city : String
  country : String
  temperature : ℚ
  feels_like : ℚ
  humidity : ℚ
  pressure : ℚ
  weather_condition : String
  wind_speed : ℚ
  recorded_at : Nat
  loaded_at : Nat
deriving Repr, DecidableEq

/-- Python `str.upper()`: uppercase each character. -/
def strUpper (s : String) : String := String.mk (s.data.map Char.toUpper)

/-- Python `str.lower()`: lowercase each character. -/
def strLower (s : String) : String := String.mk (s.data.map Char.toLower)

/-- Python `round(x, 1)`: round to the nearest tenth, ties to the even tenth
(binary floating-point representation effects are outside this model). -/
def round1 (x : ℚ) : ℚ :=
  let y := x * 10
  let f := ⌊y⌋
  let rem := y - (f : ℚ)
  let n : ℤ :=
    if rem < 1 / 2 then f
    else if 1 / 2 < rem then f + 1
    else if f % 2 = 0 then f else f + 1
  (n : ℚ) / 10

namespace WeatherTransformer

/-- `WeatherTransformer.transform_record`: build the production dict by
uppercasing the city, lowercasing the condition, rounding temperature,
feels-like and wind speed to one decimal, passing country, humidity and
pressure through, carrying `extracted_at` forward as `recorded_at` and
stamping `loaded_at` with `datetime.now()` (the `now` parameter). Each field
access raises on a `NULL` column (`.upper()`/`.lower()`/`round` on `None`),
modelled by `none`. -/
def transform_record (now : Nat) (s : StagingRecord) : Option ProductionRecord := do
  let city ← s.city
  let country ← s.country
  let temperature ← s.temperature
  let feels_like ← s.feels_like
  let humidity ← s.humidity
  let pressure ← s.pressure
  let weather_condition ← s.weather_condition
  let wind_speed ← s.wind_speed
  some
    { city := strUpper city
      country := country
      temperature := round1 temperature
      feels_like := round1 feels_like
      humidity := humidity
      pressure := pressure
      weather_condition := strLower weather_condition
      wind_speed := round1 wind_speed
      recorded_at := s.extracted_at
      loaded_at := now }

/-- The natural key of the production table: the composite unique constraint
`(city, country, recorded_at)` named in `ON CONFLICT`. -/
def rowKey (r : ProductionRecord) : String × String × Nat :=
  (r.city, r.country, r.recorded_at)

/-- The `DO UPDATE SET` clause: overwrite every non-key column of the
conflicting row with the excluded record's values, refreshing `loaded_at`;
the key columns stay. -/
def overwriteRow (old new : ProductionRecord) : ProductionRecord :=
  { old with
    temperature := new.temperature
    feels_like := new.feels_like
    humidity := new.humidity
    pressure := new.pressure
    weather_condition := new.weather_condition
    wind_speed := new.wind_speed
    loaded_at := new.loaded_at }

/-- One `INSERT ... ON CONFLICT (city, country, recorded_at) DO UPDATE`
against the production table: if a row with the record's key exists, apply
the update clause to it; otherwise append the new row. -/
def upsert (t : List ProductionRecord) (r : ProductionRecord) :
    List ProductionRecord :=
  if t.any (fun row => decide (rowKey row = rowKey r)) then
    t.map (fun row => if rowKey row = rowKey r then overwriteRow row r else row)
  else
    t ++ [r]

/-- `WeatherTransformer.load_to_production`: upsert each production record in
order and return the final table with `loaded_count`. In this database model
the upsert statement itself never raises (conflicts are what `ON CONFLICT`
absorbs), so the per-record `try` is vacuous and every record counts. -/
def load_to_production (t : List ProductionRecord)
    (production_records : List ProductionRecord) : List ProductionRecord × Nat :=
  (production_records.foldl upsert t, production_records.length)

/-- An insertion into a list sorted by `extracted_at` (helper for the `ORDER
BY extracted_at` of `get_staging_records`). -/
def insertByTime (s : StagingRecord) :
    List StagingRecord → List StagingRecord
  | [] => [s]
  | x :: xs =>
    if s.extracted_at < x.extracted_at then s :: x :: xs
    else x :: insertByTime s xs

/-- A stable sort by `extracted_at` (ties keep table order), modelling the
`ORDER BY extracted_at` of `get_staging_records`. -/
def sortByTime : List StagingRecord → List StagingRecord
  | [] => []
  | x :: xs => insertByTime x (sortByTime xs)

/-- `WeatherTransformer.get_staging_records`: `SELECT ... FROM
stg_weather_data WHERE load_id = run_id ORDER BY extracted_at`. -/
def get_staging_records (staging : List StagingRecord) (run_id : Nat) :
    List StagingRecord :=
  sortByTime (staging.filter (fun s => s.load_id == run_id))

/-- `WeatherTransformer.transform_and_load`: fetch the staged records for the
run; if none, return the zero-count dict (note its keys `transformed_count`
and `loaded_count`, unlike the non-empty branch); otherwise transform each
record, dropping (with a caught exception) the ones `transform_record`
raises on, upsert the survivors into production, and return the stats dict
`{records_transformed, records_loaded}`. The result pairs the new production
table with the returned dict (an association list, as dict key names are
observable to the caller). -/
def transform_and_load (staging : List StagingRecord)
    (production : List ProductionRecord) (run_id now : Nat) :
    List ProductionRecord × List (String × Nat) :=
  let staging_records := get_staging_records staging run_id
  if staging_records.isEmpty then
    (production, [("transformed_count", 0), ("loaded_count", 0)])
  else
    let production_records := staging_records.filterMap (transform_record now)
    let res := load_to_production production production_records
    (res.1,
      [("records_transformed", production_records.length),
       ("records_loaded", res.2)])

end WeatherTransformer

/-- `main.load_weather_data`: insert each record of the batch into
`stg_weather_data` inside a per-record `try`, so one failed insert (database
error or a `KeyError` on an absent payload key) is logged and skipped while
the loop continues; return the count of rows actually persisted. `fails`
is the per-record failure oracle; the result pairs the records the loop
attempted (in order) with the returned count. -/
def load_weather_data (fails : RawRecord → Bool) :
    List RawRecord → List RawRecord × Nat
  | [] => ([], 0)
  | r :: rest =>
    let tail := load_weather_data fails rest
    (r :: tail.1, (if fails r then 0 else 1) + tail.2)

namespace WeatherLoader

/-- `WeatherLoader.load` as written: the summary log line and the
`return loaded_count` statement sit INSIDE the `for` body, so the function
returns during the first iteration — only the first record of the batch is
ever attempted — and for an empty batch the loop body never runs and the
function falls through returning Python `None`. (Independently, its INSERT
statement misspells `VALUES` as `VALUSES`, so against a real database every
attempted insert raises and is caught, leaving the count 0; `fails` models
the insert outcome.) The result pairs the attempted records with the
returned value. -/
def load (fails : RawRecord → Bool) (data : List RawRecord) :
    List RawRecord × Option Nat :=
  match data with
  | [] => ([], none)
  | r :: _ => ([r], some (if fails r then 0 else 1))

end WeatherLoader

/-- `main.log_validation_errors`: insert one `error_log` row per invalid
`{record, errors}` pair inside a per-record `try`; a failed insert is logged
and skipped. Returns the number of rows logged. -/
def log_validation_errors (fails : RawRecord × List String → Bool)
    (invalid_records : List (RawRecord × List String)) : Nat :=
  (invalid_records.filter (fun p => !fails p)).length

/-- The mutable columns of one `pipeline_runs` row as
`update_pipeline_run` leaves them. -/
structure PipelineRunRow where
  run_id : Nat
  status : String
  records_extracted : Nat
  records_loaded : Nat
  error_message : Option String
deriving Repr, DecidableEq

/-- The environment of one `run_weather_extraction` invocation: the
extractor's output batch, the per-record failure oracles for the staging and
error-log inserts, the initial production table, the run id handed out by
`create_pipeline_run`, the clock, and `dbExc` — an uncaught database
exception striking somewhere in steps 2–6 (`none` when the database
behaves; exceptions the code catches per record are the oracles). -/
structure PipeEnv where
  data : List RawRecord
  stagingFails : RawRecord → Bool
  errorLogFails : RawRecord × List String → Bool
  production : List ProductionRecord
  run_id : Nat
  now : Nat
  dbExc : Option String

/-- The observable outcome of one pipeline run: the terminal
`pipeline_runs` row, the production table, and whether the process exits
non-zero. -/
structure RunOutcome where
  finalRun : PipelineRunRow
  production : List ProductionRecord
  exitNonZero : Bool
deriving Repr

/-- The staging rows `load_weather_data` persisted for this run: one row per
valid record whose insert succeeded, tagged `load_id = run_id`, with the
database stamping `extracted_at` (`env.now` here). -/
def stagedRows (env : PipeEnv) : List StagingRecord :=
  (((WeatherDataValidator.validate_batch env.data).valid_records.filter
      (fun r => !env.stagingFails r)).enum).map
    (fun p =>
      { id := p.1
        city := p.2.city
        country := p.2.country
        temperature := p.2.temperature
        feels_like := p.2.feels_like
        humidity := p.2.humidity
        pressure := p.2.pressure
        weather_condition := p.2.weather_condition
        wind_speed := p.2.wind_speed
        extracted_at := env.now
        load_id := env.run_id })

/-- `main.run_weather_extraction`: create the run, extract, validate, log the
invalid records, stage the valid ones, call `transform_to_production`, and
mark the run terminal. `transform_to_production` reads
`stats["records_transformed"]` and `stats["records_loaded"]` from the dict
`transform_and_load` returned; when a key is absent the `KeyError` is an
unhandled exception of the inner `try`, so the run is marked `failed` with
the exception's message (`str(KeyError)` is the quoted key) and the
re-raise reaches the outer handler, which exits non-zero. Any uncaught
database exception (`env.dbExc`) takes the same failed path with its own
message. On the clean path the run ends `success` when `invalid_count == 0`
and `partial` otherwise, with `records_extracted = len(data)` and
`records_loaded` the staging-load count. -/
def run_weather_extraction (env : PipeEnv) : RunOutcome :=
  match env.dbExc with
  | some msg =>
    { finalRun :=
        { run_id := env.run_id
          status := "failed"
          records_extracted := 0
          records_loaded := 0
          error_message := some msg }
      production := env.production
      exitNonZero := true }
  | none =>
    let validation_results := WeatherDataValidator.validate_batch env.data
    let _error_count :=
      log_validation_errors env.errorLogFails validation_results.invalid_records
    let loaded_count :=
      (load_weather_data env.stagingFails validation_results.valid_records).2
    let tres :=
      WeatherTransformer.transform_and_load (stagedRows env) env.production
        env.run_id env.now
    match tres.2.lookup "records_transformed", tres.2.lookup "records_loaded" with
    | some _, some _ =>
      let status := if validation_results.invalid_count = 0 then "success" else "partial"
      { finalRun :=
          { run_id := env.run_id
            status := status
            records_extracted := env.data.length
            records_loaded := loaded_count
            error_message := none }
        production := tres.1
        exitNonZero := false }
    | _, _ =>
      { finalRun :=
          { run_id := env.run_id
            status := "failed"
            records_extracted := 0
            records_loaded := 0
            error_message := some "KeyError: records_transformed" }
        production := tres.1
        exitNonZero := true }


namespace WeatherTransformer

/-- The key column values of every row of the production table, in row
order. At most one row per key is the table's uniqueness invariant. -/
def tableKeys (t : List ProductionRecord) : List (String × String × Nat) :=
  t.map rowKey

/-- The row of the production table carrying key `k`, if any (the first, and
under the uniqueness invariant the only, match). -/
def lookupRow (t : List ProductionRecord) (k : String × String × Nat) :
    Option ProductionRecord :=
  t.find? (fun row => decide (rowKey row = k))

/-- The last record with key `k` in an upsert batch — the one whose values
survive in the table after the whole batch is applied. -/
def lastWrite (recs : List ProductionRecord) (k : String × String × Nat) :
    Option ProductionRecord :=
  recs.reverse.find? (fun r => decide (rowKey r = k))

end WeatherTransformer

/-- The spec's short-circuit example: a record with `country = None` and an
out-of-range temperature reports only the missing-country error. -/
def c2rec : RawRecord :=
  { city := some "NullCity", country := none, temperature := some 150,
    feels_like := some 25, humidity := some 50, pressure := some 1013,
    wind_speed := some 5, weather_condition := some "Clear" }

/-- The spec's normalization example: staged `city="asuncion"`,
`condition="Sunny"`. -/
def c5staged : StagingRecord :=
  { id := 1, city := some "asuncion", country := some "PY",
    temperature := some 35, feels_like := some 33, humidity := some 34,
    pressure := some 1006, weather_condition := some "Sunny",
    wind_speed := some 7, extracted_at := 5, load_id := 2 }

/-- A staged record for the C1 idempotence witness run. -/
def c1staged : StagingRecord :=
  { id := 3, city := some "encarnacion", country := some "PY",
    temperature := some 31, feels_like := some 30, humidity := some 40,
    pressure := some 1008, weather_condition := some "Clear",
    wind_speed := some 4, extracted_at := 6, load_id := 2 }

/-- A fully valid raw record (all required fields present and in range). -/
def okRaw : RawRecord :=
  { city := some "villarrica", country := some "PY", temperature := some 28,
    feels_like := some 29, humidity := some 55, pressure := some 1009,
    wind_speed := some 3, weather_condition := some "Cloudy" }

/-- C9's failing input: one valid record whose staging insert fails — a
purely record-level failure. -/
def c9env : PipeEnv :=
  { data := [okRaw], stagingFails := fun _ => true,
    errorLogFails := fun _ => false, production := [], run_id := 4,
    now := 11, dbExc := none }

/-- A clean-run environment for the C8 witness: one valid record, no
insert failures, no database exception. -/
def c8env : PipeEnv :=
  { data := [okRaw], stagingFails := fun _ => false,
    errorLogFails := fun _ => false, production := [], run_id := 3,
    now := 10, dbExc := none }

/-- C10's gap record: every field the validator requires is present and in
range, but `feels_like` is null — which the validator never checks and the
transformer unconditionally rounds. -/
def c10raw : RawRecord :=
  { city := some "luque", country := some "PY", temperature := some 20,
    feels_like := none, humidity := some 50, pressure := some 1000,
    wind_speed := some 3, weather_condition := some "Sunny" }

/-- The staging row the loader writes for `c10raw` under run 9 (the
staging INSERT copies the null `feels_like` through). -/
def c10staged : StagingRecord :=
  { id := 7, city := some "luque", country := some "PY",
    temperature := some 20, feels_like := none, humidity := some 50,
    pressure := some 1000, weather_condition := some "Sunny",
    wind_speed := some 3, extracted_at := 4, load_id := 9 }

/-! ## Theorems -/

theorem foldl_validateStep {α : Type} (validate : α → Bool × List String)
    (records : List α) (acc : List α × List (α × List String)) :
    records.foldl (validateStep validate) acc =
      (acc.1 ++ records.filter (fun r => (validate r).1),
       acc.2 ++ (records.filter (fun r => !(validate r).1)).map
          (fun r => (r, (validate r).2))) := by
  induction records generalizing acc with
  | nil => simp
  | cons r rest ih =>
    simp only [List.foldl_cons, List.filter_cons]
    cases h : (validate r).1 with
    | false => simp [validateStep, h, ih]
    | true => simp [validateStep, h, ih]

theorem validateBatchWith_spec {α : Type} (validate : α → Bool × List String)
    (records : List α) :
    let s := validateBatchWith validate records
    s.total_records = records.length ∧
    s.valid_count = s.valid_records.length ∧
    s.invalid_count = s.invalid_records.length ∧
    s.total_records = s.valid_count + s.invalid_count ∧
    s.valid_records = records.filter (fun r => (validate r).1) ∧
    s.invalid_records = (records.filter (fun r => !(validate r).1)).map
      (fun r => (r, (validate r).2)) := by
  have h := foldl_validateStep validate records ([], [])
  simp only [List.nil_append] at h
  refine ⟨rfl, rfl, rfl, ?_, ?_, ?_⟩
  · show records.length = _
    simp only [validateBatchWith, h, List.length_map]
    exact List.length_eq_length_filter_add _
  · simp [validateBatchWith, h]
  · simp [validateBatchWith, h]

/-- C3: for every list of input records, `validate_batch` (weather and CSV
alike) returns a summary whose `total_records` is `valid_count +
invalid_count`, whose partitions are order-preserving sublists of the input
with each record unchanged (the valid ones verbatim, the invalid ones as the
`record` component of their `{record, errors}` pair), and where every input
record lands in exactly one partition (the filter and its complement). -/
theorem validate_batch_partition_both :
    (∀ records : List RawRecord,
      let s := WeatherDataValidator.validate_batch records
      s.total_records = records.length ∧
      s.valid_count = s.valid_records.length ∧
      s.invalid_count = s.invalid_records.length ∧
      s.total_records = s.valid_count + s.invalid_count ∧
      s.valid_records =
        records.filter (fun r => (WeatherDataValidator.validate_record r).1) ∧
      s.invalid_records =
        (records.filter (fun r => !(WeatherDataValidator.validate_record r).1)).map
          (fun r => (r, (WeatherDataValidator.validate_record r).2))) ∧
    (∀ records : List CSVRecord,
      let s := CSVDataValidator.validate_batch records
      s.total_records = records.length ∧
      s.valid_count = s.valid_records.length ∧
      s.invalid_count = s.invalid_records.length ∧
      s.total_records = s.valid_count + s.invalid_count ∧
      s.valid_records =
        records.filter (fun r => (CSVDataValidator.validate_record r).1) ∧
      s.invalid_records =
        (records.filter (fun r => !(CSVDataValidator.validate_record r).1)).map
          (fun r => (r, (CSVDataValidator.validate_record r).2))) :=
  ⟨fun records => validateBatchWith_spec WeatherDataValidator.validate_record records,
   fun records => validateBatchWith_spec CSVDataValidator.validate_record records⟩

/-- C2: a record with at least one required field absent or null fails
validation with exactly one missing-field error per missing required field
(in `required_fields` order) and nothing else — in particular no range-check
error, even when a present field is out of range. -/
theorem validate_record_missing_short_circuits (r : RawRecord)
    (h : ∃ f ∈ WeatherDataValidator.required_fields,
      WeatherDataValidator.fieldPresent r f = false) :
    WeatherDataValidator.validate_record r =
      (false,
        (WeatherDataValidator.required_fields.filter
            (fun f => !WeatherDataValidator.fieldPresent r f)).map
          (fun f => "Missing or null field: " ++ f)) := by
  obtain ⟨f, hf, hp⟩ := h
  have hmem : f ∈ WeatherDataValidator.required_fields.filter
      (fun f => !WeatherDataValidator.fieldPresent r f) :=
    List.mem_filter.mpr ⟨hf, by simp [hp]⟩
  have hne : WeatherDataValidator.missingErrors r ≠ [] :=
    List.ne_nil_of_mem (List.mem_map_of_mem _ hmem)
  have hE : (WeatherDataValidator.missingErrors r).isEmpty = false := by
    cases hcase : WeatherDataValidator.missingErrors r with
    | nil => exact absurd hcase hne
    | cons a l => rfl
  simp only [WeatherDataValidator.validate_record, hE]
  simp [WeatherDataValidator.missingErrors]

/-- Witness for C2 at the spec's example record. -/
theorem validate_record_missing_short_circuits_witness :
    WeatherDataValidator.validate_record c2rec =
      (false, ["Missing or null field: country"]) :=
  (validate_record_missing_short_circuits c2rec
    ⟨"country", by decide, by decide⟩).trans (by decide)

/-- C4: on a record with all six required fields present, all four range
checks run with no short-circuiting among them — the error list carries
exactly one string per violated rule (temperature in [-50, 60], humidity in
[0, 100], wind speed non-negative, pressure in [900, 1100]) — and the record
is reported valid iff that list is empty. -/
theorem validate_record_range_checks (city country : String)
    (feels_like : Option ℚ) (weather_condition : Option String)
    (t hu pr ws : ℚ) :
    let r : RawRecord :=
      { city := some city, country := some country, temperature := some t,
        feels_like := feels_like, humidity := some hu, pressure := some pr,
        wind_speed := some ws, weather_condition := weather_condition }
    let res := WeatherDataValidator.validate_record r
    res.2.length =
      ((if -50 ≤ t ∧ t ≤ 60 then 0 else 1) + (if 0 ≤ hu ∧ hu ≤ 100 then 0 else 1) +
        (if ws < 0 then 1 else 0) + (if pr < 900 ∨ pr > 1100 then 1 else 0)) ∧
    (res.1 = true ↔ res.2 = []) := by
  intro r res
  have hres : res =
      (let errors := WeatherDataValidator.temperatureError r ++
        WeatherDataValidator.humidityError r ++
        WeatherDataValidator.windSpeedError r ++
        WeatherDataValidator.pressureError r
      (errors.isEmpty, errors)) := rfl
  rw [hres]
  simp only [WeatherDataValidator.temperatureError, WeatherDataValidator.humidityError,
    WeatherDataValidator.windSpeedError, WeatherDataValidator.pressureError]
  constructor
  · split_ifs <;> simp
  · rw [List.isEmpty_iff]

/-- C5: on a staged record whose accessed columns are all non-null,
`transform_record` produces the production record with the city uppercased,
the condition lowercased, temperature / feels-like / wind speed rounded to
one decimal, humidity / pressure / country passed through, `recorded_at`
carried forward from the staged `extracted_at`, and `loaded_at` stamped
with the promotion time. -/
theorem transform_record_normalizes (now : Nat) (s : StagingRecord)
    (city country wc : String) (t fl hu pr ws : ℚ)
    (hc : s.city = some city) (hco : s.country = some country)
    (ht : s.temperature = some t) (hf : s.feels_like = some fl)
    (hh : s.humidity = some hu) (hp : s.pressure = some pr)
    (hwc : s.weather_condition = some wc) (hws : s.wind_speed = some ws) :
    WeatherTransformer.transform_record now s =
      some
        { city := strUpper city, country := country, temperature := round1 t,
          feels_like := round1 fl, humidity := hu, pressure := pr,
          weather_condition := strLower wc, wind_speed := round1 ws,
          recorded_at := s.extracted_at, loaded_at := now } := by
  simp [WeatherTransformer.transform_record, hc, hco, ht, hf, hh, hp, hwc, hws]

/-- `round1` fixes the integers: an integral value rounds to itself. -/
theorem round1_intCast (n : ℤ) : round1 ((n : ℚ)) = (n : ℚ) := by
  have h1 : ((n : ℚ) * 10) = (((n * 10 : ℤ) : ℚ)) := by push_cast; ring
  simp only [round1, h1, Int.floor_intCast, sub_self]
  rw [if_pos (by norm_num)]
  push_cast
  ring

/-- Witness for C5 at the spec's example record. -/
theorem transform_record_normalizes_witness :
    WeatherTransformer.transform_record 9 c5staged =
      some
        { city := "ASUNCION", country := "PY", temperature := 35,
          feels_like := 33, humidity := 34, pressure := 1006,
          weather_condition := "sunny", wind_speed := 7,
          recorded_at := 5, loaded_at := 9 } :=
  (transform_record_normalizes 9 c5staged "asuncion" "PY" "Sunny"
    35 33 34 1006 7 rfl rfl rfl rfl rfl rfl rfl rfl).trans (by
      have e1 : round1 (35 : ℚ) = 35 := by exact_mod_cast round1_intCast 35
      have e2 : round1 (33 : ℚ) = 33 := by exact_mod_cast round1_intCast 33
      have e3 : round1 (7 : ℚ) = 7 := by exact_mod_cast round1_intCast 7
      have s1 : strUpper "asuncion" = "ASUNCION" := by decide
      have s2 : strLower "Sunny" = "sunny" := by decide
      rw [e1, e2, e3, s1, s2]
      rfl)

/-- C6 (divergence witness): for a run with no staged records,
`transform_and_load` returns without error and with zero counts, but under
the keys `transformed_count` / `loaded_count` — not the
`records_transformed` / `records_loaded` keys of the non-empty branch — so
a `records_transformed` lookup on the result (which
`transform_to_production` performs unconditionally) finds nothing. -/
theorem transform_and_load_empty_run (staging : List StagingRecord)
    (production : List ProductionRecord) (run_id now : Nat)
    (h : WeatherTransformer.get_staging_records staging run_id = []) :
    WeatherTransformer.transform_and_load staging production run_id now =
      (production, [("transformed_count", 0), ("loaded_count", 0)]) ∧
    (WeatherTransformer.transform_and_load staging production run_id
        now).2.lookup "records_transformed" = none ∧
    (WeatherTransformer.transform_and_load staging production run_id
        now).2.lookup "records_loaded" = none := by
  have he : WeatherTransformer.transform_and_load staging production run_id now =
      (production, [("transformed_count", 0), ("loaded_count", 0)]) := by
    simp [WeatherTransformer.transform_and_load, h]
  refine ⟨he, ?_, ?_⟩ <;> rw [he] <;> rfl

/-- Witness for C6: an empty staging table, run id 1. -/
theorem transform_and_load_empty_run_witness :
    WeatherTransformer.transform_and_load [] [] 1 0 =
      ([], [("transformed_count", 0), ("loaded_count", 0)]) ∧
    (WeatherTransformer.transform_and_load [] [] 1 0).2.lookup
      "records_transformed" = none ∧
    (WeatherTransformer.transform_and_load [] [] 1 0).2.lookup
      "records_loaded" = none :=
  transform_and_load_empty_run [] [] 1 0 rfl

theorem load_weather_data_spec (fails : RawRecord → Bool)
    (data : List RawRecord) :
    (load_weather_data fails data).1 = data ∧
    (load_weather_data fails data).2 =
      (data.filter (fun r => !fails r)).length := by
  induction data with
  | nil => exact ⟨rfl, rfl⟩
  | cons r rest ih =>
    cases h : fails r <;>
      simp [load_weather_data, List.filter_cons, h, ih.1, ih.2, Nat.add_comm]

/-- C7: the orchestrator's staging loader (`main.load_weather_data`) attempts
every record of the batch — a caught per-record failure never aborts the
loop — and returns the count of rows actually persisted, which is at most
the batch length. `WeatherLoader.load`, by contrast, returns from inside the
loop: on any batch of two records it attempts only the first (whatever the
failure pattern) and returns before reaching the second, and on an empty
batch it returns `None`. -/
theorem staging_loader_batch_isolation :
    (∀ (fails : RawRecord → Bool) (data : List RawRecord),
      (load_weather_data fails data).1 = data ∧
      (load_weather_data fails data).2 =
        (data.filter (fun r => !fails r)).length ∧
      (load_weather_data fails data).2 ≤ data.length) ∧
    (∀ (fails : RawRecord → Bool) (r1 r2 : RawRecord),
      (WeatherLoader.load fails [r1, r2]).1 = [r1] ∧
      WeatherLoader.load fails [] = ([], none)) := by
  constructor
  · intro fails data
    obtain ⟨h1, h2⟩ := load_weather_data_spec fails data
    refine ⟨h1, h2, ?_⟩
    rw [h2]
    exact Nat.le_trans (List.length_filter_le _ _) (Nat.le_refl _)
  · intro fails r1 r2
    exact ⟨rfl, rfl⟩

namespace WeatherTransformer

theorem rowKey_overwriteRow (old new : ProductionRecord) :
    rowKey (overwriteRow old new) = rowKey old := rfl

theorem overwriteRow_eq_self (old r : ProductionRecord)
    (h : rowKey old = rowKey r) : overwriteRow old r = r := by
  cases old
  cases r
  simp only [rowKey, Prod.mk.injEq] at h
  simp [overwriteRow, h.1, h.2.1, h.2.2]

theorem any_key_iff (t : List ProductionRecord) (r : ProductionRecord) :
    t.any (fun row => decide (rowKey row = rowKey r)) = true ↔
      rowKey r ∈ tableKeys t := by
  constructor
  · intro h
    obtain ⟨row, hrow, hk⟩ := List.any_eq_true.mp h
    rw [← of_decide_eq_true hk]
    exact List.mem_map_of_mem _ hrow
  · intro h
    obtain ⟨row, hrow, hk⟩ := List.mem_map.mp h
    exact List.any_eq_true.mpr ⟨row, hrow, decide_eq_true hk⟩

theorem tableKeys_upsert (t : List ProductionRecord) (r : ProductionRecord) :
    tableKeys (upsert t r) =
      if rowKey r ∈ tableKeys t then tableKeys t
      else tableKeys t ++ [rowKey r] := by
  unfold upsert
  by_cases hmem : rowKey r ∈ tableKeys t
  · rw [if_pos ((any_key_iff t r).mpr hmem), if_pos hmem]
    simp only [tableKeys, List.map_map]
    apply List.map_congr_left
    intro row _
    by_cases hk : rowKey row = rowKey r
    · simp [Function.comp, hk, rowKey_overwriteRow]
    · simp [Function.comp, hk]
  · rw [if_neg (fun hany => hmem ((any_key_iff t r).mp hany)), if_neg hmem]
    simp [tableKeys]

theorem lookupRow_map_replace (t : List ProductionRecord)
    (r : ProductionRecord) (h : rowKey r ∈ tableKeys t) :
    lookupRow
      (t.map (fun row => if rowKey row = rowKey r then overwriteRow row r else row))
      (rowKey r) = some r := by
  induction t with
  | nil => simp [tableKeys] at h
  | cons row rest ih =>
    have hcons : tableKeys (row :: rest) = rowKey row :: tableKeys rest := rfl
    by_cases hk : rowKey row = rowKey r
    · have hd : decide (rowKey (overwriteRow row r) = rowKey r) = true :=
        decide_eq_true hk
      rw [List.map_cons, if_pos hk]
      unfold lookupRow
      simp only [List.find?_cons, hd]
      rw [overwriteRow_eq_self row r hk]
    · have hmem2 : rowKey r ∈ tableKeys rest := by
        rw [hcons] at h
        rcases List.mem_cons.mp h with h1 | h1
        · exact absurd h1.symm hk
        · exact h1
      have hd : decide (rowKey row = rowKey r) = false := decide_eq_false hk
      rw [List.map_cons, if_neg hk]
      unfold lookupRow
      simp only [List.find?_cons, hd]
      exact ih hmem2

theorem lookupRow_upsert_self (t : List ProductionRecord)
    (r : ProductionRecord) : lookupRow (upsert t r) (rowKey r) = some r := by
  unfold upsert
  by_cases hmem : rowKey r ∈ tableKeys t
  · rw [if_pos ((any_key_iff t r).mpr hmem)]
    exact lookupRow_map_replace t r hmem
  · rw [if_neg (fun hany => hmem ((any_key_iff t r).mp hany))]
    unfold lookupRow
    rw [List.find?_append]
    have hnone : t.find? (fun row => decide (rowKey row = rowKey r)) = none := by
      rw [List.find?_eq_none]
      intro x hx hdec
      exact hmem (by rw [← of_decide_eq_true hdec]; exact List.mem_map_of_mem _ hx)
    rw [hnone]
    simp [List.find?_cons_of_pos]

theorem lookupRow_map_replace_ne (t : List ProductionRecord)
    (r : ProductionRecord) (k : String × String × Nat) (hk : k ≠ rowKey r) :
    lookupRow
      (t.map (fun row => if rowKey row = rowKey r then overwriteRow row r else row))
      k = lookupRow t k := by
  induction t with
  | nil => rfl
  | cons row rest ih =>
    by_cases h : rowKey row = rowKey r
    · have hd1 : decide (rowKey (overwriteRow row r) = k) = false :=
        decide_eq_false (by rw [rowKey_overwriteRow, h]; exact fun e => hk e.symm)
      have hd2 : decide (rowKey row = k) = false :=
        decide_eq_false (by rw [h]; exact fun e => hk e.symm)
      rw [List.map_cons, if_pos h]
      unfold lookupRow
      simp only [List.find?_cons, hd1, hd2]
      exact ih
    · rw [List.map_cons, if_neg h]
      unfold lookupRow
      simp only [List.find?_cons]
      cases hd : decide (rowKey row = k)
      · exact ih
      · rfl

theorem lookupRow_upsert_ne (t : List ProductionRecord)
    (r : ProductionRecord) (k : String × String × Nat) (hk : k ≠ rowKey r) :
    lookupRow (upsert t r) k = lookupRow t k := by
  unfold upsert
  by_cases hmem : rowKey r ∈ tableKeys t
  · rw [if_pos ((any_key_iff t r).mpr hmem)]
    exact lookupRow_map_replace_ne t r k hk
  · rw [if_neg (fun hany => hmem ((any_key_iff t r).mp hany))]
    unfold lookupRow
    rw [List.find?_append]
    have hd : decide (rowKey r = k) = false :=
      decide_eq_false (fun e => hk e.symm)
    cases hfind : t.find? (fun row => decide (rowKey row = k))
    · simp [List.find?_cons, hd]
    · rfl

theorem nodup_tableKeys_upsert (t : List ProductionRecord)
    (r : ProductionRecord) (h : (tableKeys t).Nodup) :
    (tableKeys (upsert t r)).Nodup := by
  rw [tableKeys_upsert]
  split_ifs with hmem
  · exact h
  · rw [List.nodup_append]
    exact ⟨h, List.nodup_singleton _,
      fun k hk1 hk2 => hmem (by rwa [List.mem_singleton.mp hk2] at hk1)⟩

theorem mem_tableKeys_foldl_of_mem_table (recs t : List ProductionRecord)
    (k : String × String × Nat) (h : k ∈ tableKeys t) :
    k ∈ tableKeys (recs.foldl upsert t) := by
  induction recs generalizing t with
  | nil => exact h
  | cons a rest ih =>
    rw [List.foldl_cons]
    apply ih
    rw [tableKeys_upsert]
    split_ifs with hmem
    · exact h
    · exact List.mem_append_left _ h

theorem mem_tableKeys_upsert_self (t : List ProductionRecord)
    (r : ProductionRecord) : rowKey r ∈ tableKeys (upsert t r) := by
  rw [tableKeys_upsert]
  split_ifs with hmem
  · exact hmem
  · exact List.mem_append_right _ (List.mem_singleton.mpr rfl)

theorem mem_tableKeys_foldl_of_mem_batch (recs t : List ProductionRecord)
    (r : ProductionRecord) (h : r ∈ recs) :
    rowKey r ∈ tableKeys (recs.foldl upsert t) := by
  induction recs generalizing t with
  | nil => cases h
  | cons a rest ih =>
    rw [List.foldl_cons]
    rcases List.mem_cons.mp h with h1 | h1
    · subst h1
      exact mem_tableKeys_foldl_of_mem_table rest (upsert t r) (rowKey r)
        (mem_tableKeys_upsert_self t r)
    · exact ih (upsert t a) h1

theorem tableKeys_foldl_of_all_mem (recs t : List ProductionRecord)
    (h : ∀ r ∈ recs, rowKey r ∈ tableKeys t) :
    tableKeys (recs.foldl upsert t) = tableKeys t := by
  induction recs generalizing t with
  | nil => rfl
  | cons a rest ih =>
    rw [List.foldl_cons]
    have hkeys : tableKeys (upsert t a) = tableKeys t := by
      rw [tableKeys_upsert, if_pos (h a (List.mem_cons_self a rest))]
    rw [ih (upsert t a) (fun r hr => by
      rw [hkeys]; exact h r (List.mem_cons_of_mem a hr)), hkeys]

theorem nodup_tableKeys_foldl (recs t : List ProductionRecord)
    (h : (tableKeys t).Nodup) : (tableKeys (recs.foldl upsert t)).Nodup := by
  induction recs generalizing t with
  | nil => exact h
  | cons a rest ih =>
    rw [List.foldl_cons]
    exact ih (upsert t a) (nodup_tableKeys_upsert t a h)

theorem lastWrite_nil (k : String × String × Nat) : lastWrite [] k = none := rfl

theorem lastWrite_cons (a : ProductionRecord) (recs : List ProductionRecord)
    (k : String × String × Nat) :
    lastWrite (a :: recs) k =
      match lastWrite recs k with
      | some r => some r
      | none => if rowKey a = k then some a else none := by
  unfold lastWrite
  rw [List.reverse_cons, List.find?_append]
  cases hfind : recs.reverse.find? (fun r => decide (rowKey r = k))
  · by_cases hk : rowKey a = k
    · simp [List.find?_cons, hk]
    · simp [List.find?_cons, hk]
  · rfl

theorem lookupRow_foldl (recs t : List ProductionRecord)
    (k : String × String × Nat) :
    lookupRow (recs.foldl upsert t) k =
      match lastWrite recs k with
      | some r => some r
      | none => lookupRow t k := by
  induction recs generalizing t with
  | nil => rfl
  | cons a rest ih =>
    rw [List.foldl_cons, ih (upsert t a), lastWrite_cons]
    cases hlw : lastWrite rest k
    · by_cases hk : rowKey a = k
      · subst hk
        simp [lookupRow_upsert_self t a]
      · simp only [if_neg hk]
        exact lookupRow_upsert_ne t a k (fun e => hk e.symm)
    · rfl

theorem lookupRow_eq_none_of_not_mem (t : List ProductionRecord)
    (k : String × String × Nat) (h : k ∉ tableKeys t) : lookupRow t k = none := by
  rw [lookupRow, List.find?_eq_none]
  intro x hx hdec
  exact h (by rw [← of_decide_eq_true hdec]; exact List.mem_map_of_mem _ hx)

theorem table_ext (t1 t2 : List ProductionRecord)
    (hnd : (tableKeys t1).Nodup) (hk : tableKeys t1 = tableKeys t2)
    (hl : ∀ k, lookupRow t1 k = lookupRow t2 k) : t1 = t2 := by
  induction t1 generalizing t2 with
  | nil =>
    cases t2 with
    | nil => rfl
    | cons b m => exact absurd hk (by simp [tableKeys])
  | cons a l ih =>
    cases t2 with
    | nil => exact absurd hk (by simp [tableKeys])
    | cons b m =>
      have hkey : rowKey a = rowKey b ∧ tableKeys l = tableKeys m := by
        simpa [tableKeys] using hk
      have hab : a = b := by
        have ha : lookupRow (a :: l) (rowKey a) = some a := by
          unfold lookupRow
          simp [List.find?_cons]
        have hb : lookupRow (b :: m) (rowKey a) = some b := by
          unfold lookupRow
          simp [List.find?_cons, hkey.1.symm]
        exact Option.some.inj (by rw [← ha, ← hb]; exact hl (rowKey a))
      subst hab
      have hnotin : rowKey a ∉ tableKeys l := by
        have : tableKeys (a :: l) = rowKey a :: tableKeys l := rfl
        rw [this] at hnd
        exact (List.nodup_cons.mp hnd).1
      have hndl : (tableKeys l).Nodup := by
        have : tableKeys (a :: l) = rowKey a :: tableKeys l := rfl
        rw [this] at hnd
        exact (List.nodup_cons.mp hnd).2
      have htail : l = m := by
        apply ih m hndl hkey.2
        intro k
        by_cases hka : k = rowKey a
        · subst hka
          rw [lookupRow_eq_none_of_not_mem l _ hnotin,
            lookupRow_eq_none_of_not_mem m _ (hkey.2 ▸ hnotin)]
        · have h1 := hl k
          have hdna : decide (rowKey a = k) = false :=
            decide_eq_false (fun e => hka e.symm)
          unfold lookupRow at h1 ⊢
          simp only [List.find?_cons, hdna] at h1
          exact h1
      rw [htail]

theorem foldl_upsert_idem (recs t : List ProductionRecord)
    (h : (tableKeys t).Nodup) :
    recs.foldl upsert (recs.foldl upsert t) = recs.foldl upsert t := by
  have hTn : (tableKeys (recs.foldl upsert t)).Nodup :=
    nodup_tableKeys_foldl recs t h
  apply table_ext _ _ (nodup_tableKeys_foldl recs _ hTn)
  · exact tableKeys_foldl_of_all_mem recs _
      (fun r hr => mem_tableKeys_foldl_of_mem_batch recs t r hr)
  · intro k
    rw [lookupRow_foldl recs (recs.foldl upsert t) k, lookupRow_foldl recs t k]
    cases hlw : lastWrite recs k
    · rfl
    · rfl

end WeatherTransformer

/-- C1: starting from a production table with at most one row per
`(city, country, recorded_at)` key, one `transform_and_load` pass (which
upserts every transformed record via `load_to_production`) preserves that
uniqueness invariant — colliding records overwrite the existing row's
non-key fields in place, fresh keys insert one new row — and re-running
`transform_and_load` for the same `run_id` (same staged records, same
promotion instant) leaves the production table exactly as the first pass
did: repeated invocation converges with no duplicated rows. -/
theorem transform_and_load_idempotent (staging : List StagingRecord)
    (production : List ProductionRecord) (run_id now : Nat)
    (h : (production.map WeatherTransformer.rowKey).Nodup) :
    ((WeatherTransformer.transform_and_load staging production run_id now).1.map
        WeatherTransformer.rowKey).Nodup ∧
    (WeatherTransformer.transform_and_load staging
        (WeatherTransformer.transform_and_load staging production run_id now).1
        run_id now).1 =
      (WeatherTransformer.transform_and_load staging production run_id now).1 := by
  by_cases hre : (WeatherTransformer.get_staging_records staging run_id).isEmpty
  · have hp1 : (WeatherTransformer.transform_and_load staging production run_id
        now).1 = production := by
      simp [WeatherTransformer.transform_and_load, hre]
    rw [hp1]
    exact ⟨h, hp1⟩
  · have hp1 : (WeatherTransformer.transform_and_load staging production run_id
        now).1 =
        ((WeatherTransformer.get_staging_records staging run_id).filterMap
          (WeatherTransformer.transform_record now)).foldl
          WeatherTransformer.upsert production := by
      simp [WeatherTransformer.transform_and_load, hre,
        WeatherTransformer.load_to_production]
    have hp2 : ∀ t : List ProductionRecord,
        (WeatherTransformer.transform_and_load staging t run_id now).1 =
        ((WeatherTransformer.get_staging_records staging run_id).filterMap
          (WeatherTransformer.transform_record now)).foldl
          WeatherTransformer.upsert t := by
      intro t
      simp [WeatherTransformer.transform_and_load, hre,
        WeatherTransformer.load_to_production]
    rw [hp1, hp2]
    exact ⟨WeatherTransformer.nodup_tableKeys_foldl _ production h,
      WeatherTransformer.foldl_upsert_idem _ production h⟩

/-- Witness for C1: a one-record staging table for run 2 over an empty
production table. -/
theorem transform_and_load_idempotent_witness :
    ((WeatherTransformer.transform_and_load [c1staged] [] 2 7).1.map
        WeatherTransformer.rowKey).Nodup ∧
    (WeatherTransformer.transform_and_load [c1staged]
        (WeatherTransformer.transform_and_load [c1staged] [] 2 7).1 2 7).1 =
      (WeatherTransformer.transform_and_load [c1staged] [] 2 7).1 :=
  transform_and_load_idempotent [c1staged] [] 2 7 (by simp)

theorem insertByTime_length (s : StagingRecord) (l : List StagingRecord) :
    (WeatherTransformer.insertByTime s l).length = l.length + 1 := by
  induction l with
  | nil => rfl
  | cons x xs ih =>
    unfold WeatherTransformer.insertByTime
    split_ifs
    · rfl
    · simp [ih]

theorem sortByTime_length (l : List StagingRecord) :
    (WeatherTransformer.sortByTime l).length = l.length := by
  induction l with
  | nil => rfl
  | cons x xs ih =>
    unfold WeatherTransformer.sortByTime
    rw [insertByTime_length, ih, List.length_cons]

theorem stagedRows_load_id (env : PipeEnv) :
    ∀ s ∈ stagedRows env, s.load_id = env.run_id := by
  intro s hs
  obtain ⟨p, hp, rfl⟩ := List.mem_map.mp hs
  rfl

theorem get_staging_records_stagedRows (env : PipeEnv) :
    WeatherTransformer.get_staging_records (stagedRows env) env.run_id =
      WeatherTransformer.sortByTime (stagedRows env) := by
  unfold WeatherTransformer.get_staging_records
  rw [List.filter_eq_self.mpr]
  intro s hs
  rw [stagedRows_load_id env s hs]
  simp

theorem transform_and_load_nonempty_stats (staging : List StagingRecord)
    (production : List ProductionRecord) (run_id now : Nat)
    (h : (WeatherTransformer.get_staging_records staging run_id).isEmpty = false) :
    (WeatherTransformer.transform_and_load staging production run_id now).2 =
      [("records_transformed",
          ((WeatherTransformer.get_staging_records staging run_id).filterMap
            (WeatherTransformer.transform_record now)).length),
       ("records_loaded",
          ((WeatherTransformer.get_staging_records staging run_id).filterMap
            (WeatherTransformer.transform_record now)).length)] := by
  simp [WeatherTransformer.transform_and_load, h,
    WeatherTransformer.load_to_production]

/-- C8: whenever the run's database behaves (`dbExc = none`) and the
staging load left at least one row for the run — i.e. the transform step
completes without the unhandled `KeyError` — `run_weather_extraction` marks
the run `success` exactly when `invalid_count = 0` and `partial` otherwise,
records `records_extracted = len(data)` and `records_loaded` = the
staging-load count, and the process exits zero. -/
theorem run_weather_extraction_terminal_status (env : PipeEnv)
    (hdb : env.dbExc = none) (hstaged : stagedRows env ≠ []) :
    (run_weather_extraction env).finalRun.status =
      (if (WeatherDataValidator.validate_batch env.data).invalid_count = 0
        then "success" else "partial") ∧
    (run_weather_extraction env).finalRun.records_extracted = env.data.length ∧
    (run_weather_extraction env).finalRun.records_loaded =
      (load_weather_data env.stagingFails
        (WeatherDataValidator.validate_batch env.data).valid_records).2 ∧
    (run_weather_extraction env).exitNonZero = false := by
  have hlen : (WeatherTransformer.get_staging_records (stagedRows env)
      env.run_id).length = (stagedRows env).length := by
    rw [get_staging_records_stagedRows, sortByTime_length]
  have hne : (WeatherTransformer.get_staging_records (stagedRows env)
      env.run_id).isEmpty = false := by
    by_contra hcon
    rw [Bool.not_eq_false, List.isEmpty_iff] at hcon
    rw [hcon] at hlen
    exact hstaged (List.length_eq_zero.mp hlen.symm)
  have hstats := transform_and_load_nonempty_stats (stagedRows env)
    env.production env.run_id env.now hne
  simp [run_weather_extraction, hdb, hstats, List.lookup]

/-- Witness for C8: a clean one-record run ends `success` with one record
extracted and one loaded. -/
theorem run_weather_extraction_terminal_status_witness :
    (run_weather_extraction c8env).finalRun.status =
      (if (WeatherDataValidator.validate_batch c8env.data).invalid_count = 0
        then "success" else "partial") ∧
    (run_weather_extraction c8env).finalRun.records_extracted =
      c8env.data.length ∧
    (run_weather_extraction c8env).finalRun.records_loaded =
      (load_weather_data c8env.stagingFails
        (WeatherDataValidator.validate_batch c8env.data).valid_records).2 ∧
    (run_weather_extraction c8env).exitNonZero = false :=
  run_weather_extraction_terminal_status c8env rfl (by decide)

/-- C9 (divergence witness): in `c9env` every record passes validation and
the only failure is record-level (each staging insert fails, caught inside
the loader's loop) — yet the run ends `failed` with the
`records_transformed` `KeyError` recorded and a non-zero exit, because the
empty staging table routes `transform_and_load` into its
differently-keyed zero-count branch. A record-level failure does escalate
to run level, contradicting the claim's propagation policy. -/
theorem run_level_failure_policy_violation :
    (WeatherDataValidator.validate_batch c9env.data).invalid_count = 0 ∧
    (run_weather_extraction c9env).finalRun.status = "failed" ∧
    (run_weather_extraction c9env).finalRun.error_message =
      some "KeyError: records_transformed" ∧
    (run_weather_extraction c9env).exitNonZero = true := by
  refine ⟨by decide, by decide, by decide, by decide⟩

/-- C10: the record `c10raw` — all six validator-required fields present
and in range, `feels_like` null — is accepted by the validator, yet
`transform_record` fails on its staged row (it unconditionally rounds
`feels_like`), and `transform_and_load` over a staging table holding only
that row catches the failure and reports zero transformed and zero loaded
records with an unchanged production table: the record is silently
excluded, not reported as a validation failure. -/
theorem validator_transformer_contract_gap :
    (WeatherDataValidator.validate_record c10raw).1 = true ∧
    WeatherTransformer.transform_record 5 c10staged = none ∧
    WeatherTransformer.transform_and_load [c10staged] [] 9 5 =
      ([], [("records_transformed", 0), ("records_loaded", 0)]) := by
  refine ⟨by decide, rfl, by decide⟩
